import Mathlib

/-!
Verification of the `cad-simple-viewer-example` application layer.

The development shallowly embeds the two TypeScript source files:

* `src/ellipseCmd.ts` — the ellipse jig (`AcApEllipseJig`) and the ellipse
  command (`AcApEllipseCmd.execute`), modelled over real-valued 3-D geometry;
* `src/main.ts` — the `CadViewerApp` bootstrap (`initialize`), file loading
  (`loadFile` / `readFile`) and the popup notification UI (`showMessage` /
  `clearMessages`).  `main.ts` holds two variants of `CadViewerApp`; the
  second variant is embedded under the namespace `CadViewerAppAlt`.

Numbers are idealised as real numbers.  JavaScript division by zero yields
`NaN`; in the real-valued model `x / 0 = 0`, which we note wherever it
matters (the degenerate-axis case).
-/

namespace CadSimpleViewerExample

/-! ## Geometry model (external `@mlightcad/data-model` types)

Modelled from the spec: the geometry types `AcGePoint3d`, `AcGeVector3d`
(with `length` and `normalize`) and the entity `AcDbEllipse` are owned by the
external runtime and are not present in this repository's sources.  The spec
fixes their meaning: "major-axis vector V = P1 − P0; major-axis radius = |V|;
major-axis direction = V / |V|"; "normal = the canonical up-axis".
-/

/-- A 3-D point with real coordinates. -/
structure AcGePoint3d where
  x : ℝ
  y : ℝ
  z : ℝ

/-- A 3-D vector with real coordinates. -/
structure AcGeVector3d where
  x : ℝ
  y : ℝ
  z : ℝ

/-- Modelled from the spec: Euclidean length of a vector, `|V|`. -/
noncomputable def AcGeVector3d.length (v : AcGeVector3d) : ℝ :=
  Real.sqrt (v.x * v.x + v.y * v.y + v.z * v.z)

/-- Modelled from the spec: `V / |V|`.  In the real-valued model a division
by zero yields `0` where JavaScript would yield `NaN`. -/
noncomputable def AcGeVector3d.normalize (v : AcGeVector3d) : AcGeVector3d :=
  ⟨v.x / v.length, v.y / v.length, v.z / v.length⟩

/-- Modelled from the spec: the canonical up-axis `AcGeVector3d.Z_AXIS`. -/
def AcGeVector3d.zAxis : AcGeVector3d := ⟨0, 0, 1⟩

/-- The ellipse entity, holding exactly the seven constructor arguments used
by `ellipseCmd.ts`: center, normal, unit major-axis direction, major-axis
radius, minor-axis radius, start angle and end angle. -/
structure AcDbEllipse where
  center : AcGePoint3d
  normal : AcGeVector3d
  majorAxis : AcGeVector3d
  majorAxisRadius : ℝ
  minorAxisRadius : ℝ
  startAngle : ℝ
  endAngle : ℝ

/-! ## `src/ellipseCmd.ts` -/

/-- The ellipse built by the `AcApEllipseJig` constructor
(`ellipseCmd.ts` lines 13–30): major axis `majorAxisEndPoint - center`, normal
`Z_AXIS`, both radii equal to the major-axis length, sweep `0 .. Math.PI * 2`. -/
noncomputable def AcApEllipseJig.initialEllipse (center majorAxisEndPoint : AcGePoint3d) :
    AcDbEllipse :=
  let majorAxis : AcGeVector3d :=
    ⟨majorAxisEndPoint.x - center.x,
     majorAxisEndPoint.y - center.y,
     majorAxisEndPoint.z - center.z⟩
  let majorAxisRadius := majorAxis.length
  { center := center
    normal := AcGeVector3d.zAxis
    majorAxis := majorAxis.normalize
    majorAxisRadius := majorAxisRadius
    minorAxisRadius := majorAxisRadius
    startAngle := 0
    endAngle := Real.pi * 2 }

/-- The jig callback `AcApEllipseJig.update` (`ellipseCmd.ts` lines 36–38):
assigns the candidate minor radius to the preview ellipse. -/
def AcApEllipseJig.update (minorRadius : ℝ) (e : AcDbEllipse) : AcDbEllipse :=
  { e with minorAxisRadius := minorRadius }

/-- The ellipse built by `AcApEllipseCmd.execute` (`ellipseCmd.ts` lines
69–83) from the three prompted values. -/
noncomputable def AcApEllipseCmd.builtEllipse (center majorAxisEndPoint : AcGePoint3d)
    (minorRadius : ℝ) : AcDbEllipse :=
  let majorAxis : AcGeVector3d :=
    ⟨majorAxisEndPoint.x - center.x,
     majorAxisEndPoint.y - center.y,
     majorAxisEndPoint.z - center.z⟩
  let majorAxisRadius := majorAxis.length
  { center := center
    normal := AcGeVector3d.zAxis
    majorAxis := majorAxis.normalize
    majorAxisRadius := majorAxisRadius
    minorAxisRadius := minorRadius
    startAngle := 0
    endAngle := Real.pi * 2 }

/-- Model space as a list of ellipse entities;
`db.tables.blockTable.modelSpace.appendEntity(ellipse)` appends at the end. -/
def appendEntity (modelSpace : List AcDbEllipse) (e : AcDbEllipse) : List AcDbEllipse :=
  modelSpace ++ [e]

/-- The model-space effect of `AcApEllipseCmd.execute` (`ellipseCmd.ts` lines
68–84) once the three prompts have returned `center`, `majorAxisEndPoint` and
`minorRadius`. -/
noncomputable def AcApEllipseCmd.execute (center majorAxisEndPoint : AcGePoint3d)
    (minorRadius : ℝ) (modelSpace : List AcDbEllipse) : List AcDbEllipse :=
  appendEntity modelSpace (AcApEllipseCmd.builtEllipse center majorAxisEndPoint minorRadius)

/-! ## `src/main.ts`

JavaScript strings are modelled as lists of characters so that the string
operations of `main.ts` evaluate inside the kernel.  `main.ts` contains two
variants of the `CadViewerApp` class; the first (current) variant is embedded
in the namespace `CadViewerApp`, the second in `CadViewerAppAlt`.
-/

/-- A JavaScript string. -/
abbrev JsString := List Char

/-- The method `toLowerCase` of JavaScript strings (ASCII case folding,
which covers the file extensions compared here). -/
def toLowerCase (s : JsString) : JsString := s.map Char.toLower

/-- The method `endsWith` of JavaScript strings. -/
def jsEndsWith (s suffix : JsString) : Bool :=
  s.reverse.take suffix.length == suffix.reverse

/-- The three notification types accepted by `showMessage`. -/
inductive MessageType where
  | success
  | error
  | info
deriving DecidableEq

/-- The string interpolated into the popup class name for each type. -/
def MessageType.text : MessageType → JsString
  | .success => "success".data
  | .error => "error".data
  | .info => "info".data

/-- The content a `FileReader` delivers: a decoded text string
(`readAsText`) or a raw byte buffer (`readAsArrayBuffer`). -/
inductive FileContent where
  | text (s : JsString)
  | binary (bytes : List Nat)
deriving DecidableEq

/-- Which read the `readFile` helper starts on the `FileReader`. -/
inductive ReadMode where
  | asText
  | asArrayBuffer
  | rejectUnsupported
deriving DecidableEq

/-- The helper `CadViewerApp.readFile` (`main.ts` lines 148–155) calls
`reader.readAsArrayBuffer(file)` unconditionally; the file name is never
inspected there. -/
def CadViewerApp.readFileMode (_fileName : JsString) : ReadMode :=
  ReadMode.asArrayBuffer

/-- The helper `readFile` of the second `CadViewerApp` variant (`main.ts`
lines 351–365): a `.dxf` file is read with `readAsText`, a `.dwg` file with
`readAsArrayBuffer`, and any other name rejects the promise with
`Unsupported file type`. -/
def CadViewerAppAlt.readFileMode (fileName0 : JsString) : ReadMode :=
  let fileName := toLowerCase fileName0
  if jsEndsWith fileName ".dxf".data then ReadMode.asText
  else if jsEndsWith fileName ".dwg".data then ReadMode.asArrayBuffer
  else ReadMode.rejectUnsupported

/-- The acceptance test of `loadFile` (`main.ts` lines 105–106): the
lower-cased file name ends in `.dxf` or `.dwg`. -/
def isCadFileName (fileName : JsString) : Bool :=
  jsEndsWith (toLowerCase fileName) ".dxf".data ||
    jsEndsWith (toLowerCase fileName) ".dwg".data

/-- The observable steps `CadViewerApp.loadFile` performs, in order. -/
inductive LoadEvent where
  | initializeViewer
  | showMessage (message : JsString) (type : MessageType)
  | hideNewButton
  | clearMessages
  | readFileStart
  | addLoadedClass
  | openDocument (fileName : JsString) (content : FileContent)
      (minimumChunkSize : Nat) (readOnly : Bool)
deriving DecidableEq

/-- The trace of `CadViewerApp.loadFile` (`main.ts` lines 101–146), as a
function of the selected file's name, of the outcome of the awaited
`readFile` promise, and of the boolean the awaited `openDocument` call
returns.  The single `try` block is entered only after the extension check;
a rejected read lands in the `catch` block, which shows one error message
and returns. -/
def CadViewerApp.loadFile (fileName : JsString)
    (readResult : Except JsString FileContent) (openSuccess : Bool) :
    List LoadEvent :=
  LoadEvent.initializeViewer ::
    (let lower := toLowerCase fileName
     if !(jsEndsWith lower ".dxf".data) && !(jsEndsWith lower ".dwg".data) then
       [LoadEvent.showMessage "Please select a DXF or DWG file".data MessageType.error]
     else
       LoadEvent.hideNewButton :: LoadEvent.clearMessages :: LoadEvent.readFileStart ::
         (match readResult with
          | Except.error e =>
              [LoadEvent.showMessage ("Error loading file: ".data ++ e) MessageType.error]
          | Except.ok fileContent =>
              LoadEvent.addLoadedClass ::
                LoadEvent.openDocument fileName fileContent 1000 true ::
                  (if openSuccess then
                     [LoadEvent.showMessage ("Successfully loaded: ".data ++ fileName)
                        MessageType.success]
                   else
                     [LoadEvent.showMessage ("Failed to load: ".data ++ fileName)
                        MessageType.error])))

/-- A DOM element, reduced to the two attributes `showMessage` sets and
`clearMessages` inspects. -/
structure DomElement where
  className : JsString
  textContent : JsString
deriving DecidableEq

/-- The selector `.popup-message` of `querySelectorAll` matches an element
whose space-separated class list contains `popup-message`. -/
def DomElement.hasPopupMessageClass (el : DomElement) : Bool :=
  (el.className.splitOn ' ').contains "popup-message".data

/-- The method `CadViewerApp.clearMessages` (`main.ts` lines 205–208):
every element matching `.popup-message` is removed from the document. -/
def CadViewerApp.clearMessages (body : List DomElement) : List DomElement :=
  body.filter (fun el => !(DomElement.hasPopupMessageClass el))

/-- The popup element `showMessage` creates (`main.ts` lines 164–167):
class name `popup-message ` followed by the type, text content the message. -/
def createPopup (message : JsString) (type : MessageType) : DomElement :=
  { className := "popup-message ".data ++ type.text
    textContent := message }

/-- The dismissal schedule `showMessage` installs (`main.ts` lines
195–202): fade out after 1000 ms, removal 200 ms after that. -/
structure PopupTiming where
  fadeOutAfterMs : Nat
  removeAfterFurtherMs : Nat
deriving DecidableEq

/-- The timeouts hard-coded in `showMessage`. -/
def showMessageTiming : PopupTiming :=
  { fadeOutAfterMs := 1000, removeAfterFurtherMs := 200 }

/-- The document-body effect of `CadViewerApp.showMessage` (`main.ts` lines
157–203): all existing popup messages are removed, then the new popup is
appended to `document.body`. -/
def CadViewerApp.showMessage (message : JsString) (type : MessageType)
    (body : List DomElement) : List DomElement :=
  CadViewerApp.clearMessages body ++ [createPopup message type]

/-- The bootstrap state touched by `CadViewerApp.initialize`. -/
structure AppState where
  isInitialized : Bool
  createInstanceCount : Nat
  localeInitialized : Bool
  ellipseCommandRegistered : Bool
  messages : List (JsString × MessageType)
deriving DecidableEq

/-- The guarded bootstrap `CadViewerApp.initialize` (`main.ts` lines 23–42):
nothing happens when `isInitialized` is already set; otherwise the runtime is
constructed (`AcApDocManager.createInstance`), the locale is initialized, the
`ellipse` command is registered and the flag is set.  The parameter
`createInstanceSucceeds` models whether the `try` block throws; on a throw
the `catch` arm shows one error message and the flag stays unset. -/
def CadViewerApp.initializeApp (createInstanceSucceeds : Bool) (s : AppState) :
    AppState :=
  if s.isInitialized then s
  else if createInstanceSucceeds then
    { s with
      createInstanceCount := s.createInstanceCount + 1
      localeInitialized := true
      ellipseCommandRegistered := true
      isInitialized := true }
  else
    { s with
      messages := s.messages ++
        [("Failed to initialize CAD viewer".data, MessageType.error)] }

end CadSimpleViewerExample

namespace CadSimpleViewerExample

/-- Helper: when the extension check passes, the rejecting condition of
`loadFile` is false. -/
lemma accept_cond_of_isCadFileName {fileName : JsString}
    (h : isCadFileName fileName = true) :
    (!(jsEndsWith (toLowerCase fileName) ".dxf".data) &&
      !(jsEndsWith (toLowerCase fileName) ".dwg".data)) = false := by
  unfold isCadFileName at h
  cases hx : jsEndsWith (toLowerCase fileName) ".dxf".data <;>
    cases hy : jsEndsWith (toLowerCase fileName) ".dwg".data <;>
    simp_all

/-- Helper: when the extension check fails, both suffix tests are false. -/
lemma suffix_tests_of_not_cadFileName {fileName : JsString}
    (h : isCadFileName fileName = false) :
    jsEndsWith (toLowerCase fileName) ".dxf".data = false ∧
      jsEndsWith (toLowerCase fileName) ".dwg".data = false := by
  unfold isCadFileName at h
  cases hx : jsEndsWith (toLowerCase fileName) ".dxf".data <;>
    cases hy : jsEndsWith (toLowerCase fileName) ".dwg".data <;>
    simp_all

/-- Helper: filtering with a predicate after filtering with its negation
leaves nothing. -/
lemma filter_of_filter_not {α : Type} (p : α → Bool) (l : List α) :
    (l.filter fun a => !(p a)).filter p = [] := by
  induction l with
  | nil => rfl
  | cons a l ih => cases h : p a <;> simp [List.filter_cons, h, ih]

/-- C7: for every candidate minor-radius value `v`, `AcApEllipseJig.update v`
changes only the minor-axis radius of the preview ellipse; center, normal,
major-axis direction, major-axis radius, start angle and end angle are
unchanged. -/
theorem jig_update_changes_only_minor_radius (e : AcDbEllipse) (v : ℝ) :
    (AcApEllipseJig.update v e).minorAxisRadius = v ∧
    (AcApEllipseJig.update v e).center = e.center ∧
    (AcApEllipseJig.update v e).normal = e.normal ∧
    (AcApEllipseJig.update v e).majorAxis = e.majorAxis ∧
    (AcApEllipseJig.update v e).majorAxisRadius = e.majorAxisRadius ∧
    (AcApEllipseJig.update v e).startAngle = e.startAngle ∧
    (AcApEllipseJig.update v e).endAngle = e.endAngle :=
  ⟨rfl, rfl, rfl, rfl, rfl, rfl, rfl⟩

/-- C8: before any `update` call, the jig's preview ellipse has its
minor-axis radius equal to its major-axis radius, both being the length of
`majorAxisEndPoint - center`: the initial preview is a circle. -/
theorem jig_initial_preview_is_circle (center majorAxisEndPoint : AcGePoint3d) :
    (AcApEllipseJig.initialEllipse center majorAxisEndPoint).minorAxisRadius =
      (AcApEllipseJig.initialEllipse center majorAxisEndPoint).majorAxisRadius ∧
    (AcApEllipseJig.initialEllipse center majorAxisEndPoint).majorAxisRadius =
      AcGeVector3d.length
        ⟨majorAxisEndPoint.x - center.x,
         majorAxisEndPoint.y - center.y,
         majorAxisEndPoint.z - center.z⟩ :=
  ⟨rfl, rfl⟩

/-- C9: the ellipse committed by `AcApEllipseCmd.execute` coincides, in every
field, with the jig's preview ellipse after `update minorRadius`: the commit
path recomputes exactly the values the preview showed. -/
theorem execute_matches_jig_preview (center majorAxisEndPoint : AcGePoint3d)
    (minorRadius : ℝ) :
    AcApEllipseCmd.builtEllipse center majorAxisEndPoint minorRadius =
      AcApEllipseJig.update minorRadius
        (AcApEllipseJig.initialEllipse center majorAxisEndPoint) :=
  rfl

/-- C1: for every center `P0`, distinct major-axis endpoint `P1` and minor
radius `r`, the ellipse that `AcApEllipseCmd.execute` appends to model space
has center `P0`, normal the canonical up-axis, major-axis direction
`(P1 - P0)` normalized, major-axis radius `|P1 - P0|`, minor-axis radius `r`
and sweep from `0` to `2π`; and for `P0 = (0,0,0)`, `P1 = (0,100,0)`,
`r = 25` the major radius is `100`, the minor radius `25` and the direction
`(0,1,0)`. -/
theorem execute_appends_specified_ellipse :
    (∀ (P0 P1 : AcGePoint3d) (r : ℝ) (modelSpace : List AcDbEllipse), P1 ≠ P0 →
      (AcApEllipseCmd.builtEllipse P0 P1 r).center = P0 ∧
      (AcApEllipseCmd.builtEllipse P0 P1 r).normal = AcGeVector3d.zAxis ∧
      (AcApEllipseCmd.builtEllipse P0 P1 r).majorAxis =
        AcGeVector3d.normalize ⟨P1.x - P0.x, P1.y - P0.y, P1.z - P0.z⟩ ∧
      (AcApEllipseCmd.builtEllipse P0 P1 r).majorAxisRadius =
        AcGeVector3d.length ⟨P1.x - P0.x, P1.y - P0.y, P1.z - P0.z⟩ ∧
      (AcApEllipseCmd.builtEllipse P0 P1 r).minorAxisRadius = r ∧
      (AcApEllipseCmd.builtEllipse P0 P1 r).startAngle = 0 ∧
      (AcApEllipseCmd.builtEllipse P0 P1 r).endAngle = Real.pi * 2 ∧
      AcApEllipseCmd.execute P0 P1 r modelSpace =
        modelSpace ++ [AcApEllipseCmd.builtEllipse P0 P1 r]) ∧
    ((AcApEllipseCmd.builtEllipse ⟨0, 0, 0⟩ ⟨0, 100, 0⟩ 25).majorAxisRadius = 100 ∧
     (AcApEllipseCmd.builtEllipse ⟨0, 0, 0⟩ ⟨0, 100, 0⟩ 25).minorAxisRadius = 25 ∧
     (AcApEllipseCmd.builtEllipse ⟨0, 0, 0⟩ ⟨0, 100, 0⟩ 25).majorAxis = ⟨0, 1, 0⟩) := by
  constructor
  · intro P0 P1 r modelSpace _
    exact ⟨rfl, rfl, rfl, rfl, rfl, rfl, rfl, rfl⟩
  · have hlen2 : AcGeVector3d.length ⟨(0:ℝ) - 0, (100:ℝ) - 0, (0:ℝ) - 0⟩ = 100 := by
      unfold AcGeVector3d.length
      have h : ((0:ℝ) - 0) * ((0:ℝ) - 0) + ((100:ℝ) - 0) * ((100:ℝ) - 0) +
          ((0:ℝ) - 0) * ((0:ℝ) - 0) = 100 ^ 2 := by norm_num
      rw [h, Real.sqrt_sq (by norm_num : (0:ℝ) ≤ 100)]
    refine ⟨?_, rfl, ?_⟩
    · show AcGeVector3d.length ⟨(0:ℝ) - 0, (100:ℝ) - 0, (0:ℝ) - 0⟩ = 100
      exact hlen2
    · show AcGeVector3d.normalize ⟨(0:ℝ) - 0, (100:ℝ) - 0, (0:ℝ) - 0⟩ = ⟨0, 1, 0⟩
      unfold AcGeVector3d.normalize
      rw [hlen2]
      simp

/-- Witness for C1 at `P0 = (0,0,0)`, `P1 = (0,100,0)`, `r = 25` on an empty
model space. -/
theorem execute_appends_specified_ellipse_witness :
    (⟨0, 100, 0⟩ : AcGePoint3d) ≠ (⟨0, 0, 0⟩ : AcGePoint3d) ∧
    ((AcApEllipseCmd.builtEllipse ⟨0, 0, 0⟩ ⟨0, 100, 0⟩ 25).center = ⟨0, 0, 0⟩ ∧
     (AcApEllipseCmd.builtEllipse ⟨0, 0, 0⟩ ⟨0, 100, 0⟩ 25).normal = AcGeVector3d.zAxis ∧
     (AcApEllipseCmd.builtEllipse ⟨0, 0, 0⟩ ⟨0, 100, 0⟩ 25).majorAxis =
       AcGeVector3d.normalize
         ⟨(⟨0, 100, 0⟩ : AcGePoint3d).x - (⟨0, 0, 0⟩ : AcGePoint3d).x,
          (⟨0, 100, 0⟩ : AcGePoint3d).y - (⟨0, 0, 0⟩ : AcGePoint3d).y,
          (⟨0, 100, 0⟩ : AcGePoint3d).z - (⟨0, 0, 0⟩ : AcGePoint3d).z⟩ ∧
     (AcApEllipseCmd.builtEllipse ⟨0, 0, 0⟩ ⟨0, 100, 0⟩ 25).majorAxisRadius =
       AcGeVector3d.length
         ⟨(⟨0, 100, 0⟩ : AcGePoint3d).x - (⟨0, 0, 0⟩ : AcGePoint3d).x,
          (⟨0, 100, 0⟩ : AcGePoint3d).y - (⟨0, 0, 0⟩ : AcGePoint3d).y,
          (⟨0, 100, 0⟩ : AcGePoint3d).z - (⟨0, 0, 0⟩ : AcGePoint3d).z⟩ ∧
     (AcApEllipseCmd.builtEllipse ⟨0, 0, 0⟩ ⟨0, 100, 0⟩ 25).minorAxisRadius = 25 ∧
     (AcApEllipseCmd.builtEllipse ⟨0, 0, 0⟩ ⟨0, 100, 0⟩ 25).startAngle = 0 ∧
     (AcApEllipseCmd.builtEllipse ⟨0, 0, 0⟩ ⟨0, 100, 0⟩ 25).endAngle = Real.pi * 2 ∧
     AcApEllipseCmd.execute ⟨0, 0, 0⟩ ⟨0, 100, 0⟩ 25 [] =
       [] ++ [AcApEllipseCmd.builtEllipse ⟨0, 0, 0⟩ ⟨0, 100, 0⟩ 25]) :=
  have hne : (⟨0, 100, 0⟩ : AcGePoint3d) ≠ (⟨0, 0, 0⟩ : AcGePoint3d) := by
    intro h
    have hy := congrArg AcGePoint3d.y h
    norm_num at hy
  ⟨hne, execute_appends_specified_ellipse.1 ⟨0, 0, 0⟩ ⟨0, 100, 0⟩ 25 [] hne⟩

/-- C2 (the code at the degenerate input): when the major-axis endpoint
equals the center, `AcApEllipseCmd.execute` raises no error at all — it
appends an ellipse whose major-axis radius is `0` and whose major-axis
direction is the result of dividing the zero vector by its zero length
(`NaN` in JavaScript, `0` in this real-valued model). -/
theorem execute_degenerate_axis_appends_entity :
    AcApEllipseCmd.execute ⟨0, 0, 0⟩ ⟨0, 0, 0⟩ 25 [] =
      [{ center := ⟨0, 0, 0⟩
         normal := AcGeVector3d.zAxis
         majorAxis := ⟨0, 0, 0⟩
         majorAxisRadius := 0
         minorAxisRadius := 25
         startAngle := 0
         endAngle := Real.pi * 2 }] := by
  have hlen : AcGeVector3d.length ⟨(0:ℝ) - 0, (0:ℝ) - 0, (0:ℝ) - 0⟩ = 0 := by
    unfold AcGeVector3d.length
    norm_num
  unfold AcApEllipseCmd.execute AcApEllipseCmd.builtEllipse appendEntity
  simp only [hlen]
  unfold AcGeVector3d.normalize
  rw [hlen]
  norm_num

/-- C3: `loadFile` reaches the file read exactly when the selected file's
name ends in `.dxf` or `.dwg` case-insensitively; every other name is
rejected with the user-facing message `Please select a DXF or DWG file` and
nothing further happens — in particular no read is started. -/
theorem load_file_validates_extension :
    (∀ (fileName : JsString) (readResult : Except JsString FileContent)
        (openSuccess : Bool),
      LoadEvent.readFileStart ∈ CadViewerApp.loadFile fileName readResult openSuccess ↔
        isCadFileName fileName = true) ∧
    (∀ (fileName : JsString) (readResult : Except JsString FileContent)
        (openSuccess : Bool),
      isCadFileName fileName = false →
      CadViewerApp.loadFile fileName readResult openSuccess =
        [LoadEvent.initializeViewer,
         LoadEvent.showMessage "Please select a DXF or DWG file".data
           MessageType.error]) := by
  constructor
  · intro fileName readResult openSuccess
    unfold CadViewerApp.loadFile isCadFileName
    cases hx : jsEndsWith (toLowerCase fileName) ".dxf".data <;>
      cases hy : jsEndsWith (toLowerCase fileName) ".dwg".data <;>
      cases readResult <;>
      cases openSuccess <;>
      simp [hx, hy]
  · intro fileName readResult openSuccess h
    have hs := suffix_tests_of_not_cadFileName h
    unfold CadViewerApp.loadFile
    simp [hs.1, hs.2]

/-- Witness for C3: the name `photo.png` is rejected up front with the
user-facing message and no read. -/
theorem load_file_validates_extension_witness :
    CadViewerApp.loadFile "photo.png".data (Except.ok (FileContent.binary [])) true =
      [LoadEvent.initializeViewer,
       LoadEvent.showMessage "Please select a DXF or DWG file".data
         MessageType.error] :=
  load_file_validates_extension.2 "photo.png".data
    (Except.ok (FileContent.binary [])) true (by decide)

/-- C4: calling the bootstrap `initialize` twice constructs the runtime at
most once — the first successful call sets `isInitialized`, and any second
call (successful or not) leaves the whole state, registrations included,
unchanged. -/
theorem bootstrap_constructs_runtime_once (s : AppState) (b : Bool) :
    (CadViewerApp.initializeApp true s).isInitialized = true ∧
    CadViewerApp.initializeApp b (CadViewerApp.initializeApp true s) =
      CadViewerApp.initializeApp true s ∧
    (CadViewerApp.initializeApp b
        (CadViewerApp.initializeApp true s)).createInstanceCount ≤
      s.createInstanceCount + 1 := by
  unfold CadViewerApp.initializeApp
  cases h : s.isInitialized <;> simp [h]

/-- C5 counterexample: the current `readFile` starts `readAsArrayBuffer` on
a `.dxf` file, not a text read. -/
theorem read_file_dxf_not_read_as_text :
    CadViewerApp.readFileMode "drawing.dxf".data = ReadMode.asArrayBuffer ∧
    ¬ CadViewerApp.readFileMode "drawing.dxf".data = ReadMode.asText :=
  ⟨rfl, by decide⟩

/-- C5 as amended: the current `CadViewerApp.readFile` reads every selected
file as a binary `ArrayBuffer` regardless of extension, and `loadFile`
forwards the read result to `openDocument` exactly for accepted names; the
extension-dependent choice (`.dxf` as text, `.dwg` as binary, others
rejected) is the second `CadViewerApp` variant's `readFile`. -/
theorem read_file_mode_spec :
    (∀ fileName : JsString,
      CadViewerApp.readFileMode fileName = ReadMode.asArrayBuffer) ∧
    (∀ fileName : JsString,
      jsEndsWith (toLowerCase fileName) ".dxf".data = true →
      CadViewerAppAlt.readFileMode fileName = ReadMode.asText) ∧
    (∀ fileName : JsString,
      jsEndsWith (toLowerCase fileName) ".dxf".data = false →
      jsEndsWith (toLowerCase fileName) ".dwg".data = true →
      CadViewerAppAlt.readFileMode fileName = ReadMode.asArrayBuffer) ∧
    (∀ fileName : JsString,
      isCadFileName fileName = false →
      CadViewerAppAlt.readFileMode fileName = ReadMode.rejectUnsupported) ∧
    (∀ (fileName : JsString) (c : FileContent) (openSuccess : Bool),
      LoadEvent.openDocument fileName c 1000 true ∈
          CadViewerApp.loadFile fileName (Except.ok c) openSuccess ↔
        isCadFileName fileName = true) := by
  refine ⟨fun _ => rfl, ?_, ?_, ?_, ?_⟩
  · intro fileName h
    unfold CadViewerAppAlt.readFileMode
    simp [h]
  · intro fileName h1 h2
    unfold CadViewerAppAlt.readFileMode
    simp [h1, h2]
  · intro fileName h
    have hs := suffix_tests_of_not_cadFileName h
    unfold CadViewerAppAlt.readFileMode
    simp [hs.1, hs.2]
  · intro fileName c openSuccess
    unfold CadViewerApp.loadFile isCadFileName
    cases hx : jsEndsWith (toLowerCase fileName) ".dxf".data <;>
      cases hy : jsEndsWith (toLowerCase fileName) ".dwg".data <;>
      cases openSuccess <;>
      simp [hx, hy]

/-- Witness for C5 as amended, at the names `a.DXF`, `b.dwg` and `c.png`. -/
theorem read_file_mode_spec_witness :
    CadViewerAppAlt.readFileMode "a.DXF".data = ReadMode.asText ∧
    CadViewerAppAlt.readFileMode "b.dwg".data = ReadMode.asArrayBuffer ∧
    CadViewerAppAlt.readFileMode "c.png".data = ReadMode.rejectUnsupported ∧
    LoadEvent.openDocument "a.DXF".data (FileContent.binary [1]) 1000 true ∈
      CadViewerApp.loadFile "a.DXF".data (Except.ok (FileContent.binary [1])) true :=
  ⟨read_file_mode_spec.2.1 "a.DXF".data (by decide),
   read_file_mode_spec.2.2.1 "b.dwg".data (by decide) (by decide),
   read_file_mode_spec.2.2.2.1 "c.png".data (by decide),
   (read_file_mode_spec.2.2.2.2 "a.DXF".data (FileContent.binary [1]) true).mpr
     (by decide)⟩

/-- C6: every failure inside `loadFile` is terminal for that one load — a
rejected read yields exactly one error notification after a single read
attempt and never reaches `openDocument`; a false return from `openDocument`
yields exactly one error notification after a single open attempt; a true
return yields the success notification.  Notifications are transient: the
popup fades after 1000 ms and is removed 200 ms later. -/
theorem load_file_failures_are_terminal :
    (∀ (fileName e : JsString) (openSuccess : Bool),
      isCadFileName fileName = true →
      CadViewerApp.loadFile fileName (Except.error e) openSuccess =
        [LoadEvent.initializeViewer, LoadEvent.hideNewButton,
         LoadEvent.clearMessages, LoadEvent.readFileStart,
         LoadEvent.showMessage ("Error loading file: ".data ++ e)
           MessageType.error]) ∧
    (∀ (fileName : JsString) (c : FileContent),
      isCadFileName fileName = true →
      CadViewerApp.loadFile fileName (Except.ok c) false =
        [LoadEvent.initializeViewer, LoadEvent.hideNewButton,
         LoadEvent.clearMessages, LoadEvent.readFileStart,
         LoadEvent.addLoadedClass,
         LoadEvent.openDocument fileName c 1000 true,
         LoadEvent.showMessage ("Failed to load: ".data ++ fileName)
           MessageType.error]) ∧
    (∀ (fileName : JsString) (c : FileContent),
      isCadFileName fileName = true →
      CadViewerApp.loadFile fileName (Except.ok c) true =
        [LoadEvent.initializeViewer, LoadEvent.hideNewButton,
         LoadEvent.clearMessages, LoadEvent.readFileStart,
         LoadEvent.addLoadedClass,
         LoadEvent.openDocument fileName c 1000 true,
         LoadEvent.showMessage ("Successfully loaded: ".data ++ fileName)
           MessageType.success]) ∧
    showMessageTiming.fadeOutAfterMs = 1000 ∧
    showMessageTiming.removeAfterFurtherMs = 200 := by
  refine ⟨?_, ?_, ?_, rfl, rfl⟩
  · intro fileName e openSuccess h
    unfold CadViewerApp.loadFile
    simp [accept_cond_of_isCadFileName h]
  · intro fileName c h
    unfold CadViewerApp.loadFile
    simp [accept_cond_of_isCadFileName h]
  · intro fileName c h
    unfold CadViewerApp.loadFile
    simp [accept_cond_of_isCadFileName h]

/-- Witness for C6 at the accepted name `a.dxf`: a rejected read, a failed
open and a successful open. -/
theorem load_file_failures_are_terminal_witness :
    CadViewerApp.loadFile "a.dxf".data (Except.error "boom".data) true =
      [LoadEvent.initializeViewer, LoadEvent.hideNewButton,
       LoadEvent.clearMessages, LoadEvent.readFileStart,
       LoadEvent.showMessage ("Error loading file: ".data ++ "boom".data)
         MessageType.error] ∧
    CadViewerApp.loadFile "a.dxf".data (Except.ok (FileContent.binary [0])) false =
      [LoadEvent.initializeViewer, LoadEvent.hideNewButton,
       LoadEvent.clearMessages, LoadEvent.readFileStart,
       LoadEvent.addLoadedClass,
       LoadEvent.openDocument "a.dxf".data (FileContent.binary [0]) 1000 true,
       LoadEvent.showMessage ("Failed to load: ".data ++ "a.dxf".data)
         MessageType.error] ∧
    CadViewerApp.loadFile "a.dxf".data (Except.ok (FileContent.binary [0])) true =
      [LoadEvent.initializeViewer, LoadEvent.hideNewButton,
       LoadEvent.clearMessages, LoadEvent.readFileStart,
       LoadEvent.addLoadedClass,
       LoadEvent.openDocument "a.dxf".data (FileContent.binary [0]) 1000 true,
       LoadEvent.showMessage ("Successfully loaded: ".data ++ "a.dxf".data)
         MessageType.success] :=
  ⟨load_file_failures_are_terminal.1 "a.dxf".data "boom".data true (by decide),
   load_file_failures_are_terminal.2.1 "a.dxf".data (FileContent.binary [0])
     (by decide),
   load_file_failures_are_terminal.2.2.1 "a.dxf".data (FileContent.binary [0])
     (by decide)⟩

/-- C10: after any `showMessage` call exactly one element with class
`popup-message` is in the document — the freshly created popup — because all
previously present popup messages are removed first. -/
theorem show_message_at_most_one_popup (body : List DomElement)
    (message : JsString) (t : MessageType) :
    (CadViewerApp.clearMessages body).filter DomElement.hasPopupMessageClass = [] ∧
    (CadViewerApp.showMessage message t body).filter DomElement.hasPopupMessageClass =
      [createPopup message t] := by
  have h1 : (CadViewerApp.clearMessages body).filter DomElement.hasPopupMessageClass = [] := by
    unfold CadViewerApp.clearMessages
    exact filter_of_filter_not DomElement.hasPopupMessageClass body
  refine ⟨h1, ?_⟩
  unfold CadViewerApp.showMessage
  rw [List.filter_append, h1]
  have hp : DomElement.hasPopupMessageClass (createPopup message t) = true := by
    cases t <;> simp [DomElement.hasPopupMessageClass, createPopup, MessageType.text] <;> decide
  simp [List.filter_cons, hp]

end CadSimpleViewerExample
